import Mathlib

/-!
Verification of the ratio computation and scoring engine of `project1.py`
(a Streamlit financial-analysis app).  The numeric values flowing through
the engine are numpy float64 scalars produced by `pd.to_numeric(...,
errors='coerce')`; we model them with an exact value domain `FVal`
(finite rational, NaN, +inf, -inf) whose operations follow the IEEE-754
rules that numpy applies (NaN propagates through arithmetic; every
ordered comparison against NaN is false; finite/0 gives a signed
infinity or NaN).  Rounding is irrelevant to the claims checked here.
-/

namespace Project1

/-- A numpy float64 value as used by the engine: an exact finite value,
NaN (the missing sentinel produced by `errors='coerce'` and by the
`else float('nan')` guards), or a signed infinity (produced by the
unguarded divisions). -/
inductive FVal where
  | fin : ℚ → FVal
  | nan : FVal
  | inf : FVal
  | ninf : FVal
deriving DecidableEq, Repr

/-- IEEE addition (`x + y` on numpy scalars). -/
def fadd : FVal → FVal → FVal
  | .fin a, .fin b => .fin (a + b)
  | .nan, _ => .nan
  | _, .nan => .nan
  | .inf, .ninf => .nan
  | .ninf, .inf => .nan
  | .inf, _ => .inf
  | _, .inf => .inf
  | .ninf, _ => .ninf
  | _, .ninf => .ninf

/-- IEEE subtraction (`x - y` on numpy scalars). -/
def fsub : FVal → FVal → FVal
  | .fin a, .fin b => .fin (a - b)
  | .nan, _ => .nan
  | _, .nan => .nan
  | .inf, .inf => .nan
  | .ninf, .ninf => .nan
  | .inf, _ => .inf
  | _, .inf => .ninf
  | .ninf, _ => .ninf
  | _, .ninf => .inf

/-- IEEE multiplication (`x * y` on numpy scalars). -/
def fmul : FVal → FVal → FVal
  | .fin a, .fin b => .fin (a * b)
  | .nan, _ => .nan
  | _, .nan => .nan
  | .inf, .inf => .inf
  | .inf, .ninf => .ninf
  | .ninf, .inf => .ninf
  | .ninf, .ninf => .inf
  | .inf, .fin b => if b = 0 then .nan else if 0 < b then .inf else .ninf
  | .fin a, .inf => if a = 0 then .nan else if 0 < a then .inf else .ninf
  | .ninf, .fin b => if b = 0 then .nan else if 0 < b then .ninf else .inf
  | .fin a, .ninf => if a = 0 then .nan else if 0 < a then .ninf else .inf

/-- IEEE true division (`x / y` on numpy scalars; numpy emits a
RuntimeWarning on division by zero but returns an infinity or NaN, it
does not raise). -/
def fdiv : FVal → FVal → FVal
  | .nan, _ => .nan
  | _, .nan => .nan
  | .fin a, .fin b =>
      if b = 0 then (if a = 0 then .nan else if 0 < a then .inf else .ninf)
      else .fin (a / b)
  | .fin _, .inf => .fin 0
  | .fin _, .ninf => .fin 0
  | .inf, .fin b => if 0 ≤ b then .inf else .ninf
  | .ninf, .fin b => if 0 ≤ b then .ninf else .inf
  | .inf, .inf => .nan
  | .inf, .ninf => .nan
  | .ninf, .inf => .nan
  | .ninf, .ninf => .nan

/-- IEEE `<` (Python `x < y`); any comparison involving NaN is false. -/
def flt : FVal → FVal → Bool
  | .fin a, .fin b => decide (a < b)
  | .nan, _ => false
  | _, .nan => false
  | .ninf, .ninf => false
  | .inf, .inf => false
  | .ninf, _ => true
  | _, .inf => true
  | _, _ => false

/-- IEEE `≤` (Python `x <= y`); any comparison involving NaN is false. -/
def fle : FVal → FVal → Bool
  | .fin a, .fin b => decide (a ≤ b)
  | .nan, _ => false
  | _, .nan => false
  | .ninf, _ => true
  | _, .inf => true
  | _, _ => false

/-- IEEE `>` (Python `x > y`). -/
def fgt (x y : FVal) : Bool := flt y x

/-- The guarded-division idiom used throughout the source:
`x / y if y != 0 else float('nan')`.  In Python `y != 0` is true for
NaN and for infinities, so only an exactly-zero denominator takes the
NaN branch; every other case performs the IEEE division. -/
def guardedDiv (x y : FVal) : FVal :=
  if y = FVal.fin 0 then FVal.nan else fdiv x y

theorem fadd_nan_left (y : FVal) : fadd FVal.nan y = FVal.nan := by
  cases y <;> rfl

theorem fadd_nan_right (x : FVal) : fadd x FVal.nan = FVal.nan := by
  cases x <;> rfl

theorem fsub_nan_left (y : FVal) : fsub FVal.nan y = FVal.nan := by
  cases y <;> rfl

theorem fsub_nan_right (x : FVal) : fsub x FVal.nan = FVal.nan := by
  cases x <;> rfl

theorem fmul_nan_left (y : FVal) : fmul FVal.nan y = FVal.nan := by
  cases y <;> rfl

theorem fmul_nan_right (x : FVal) : fmul x FVal.nan = FVal.nan := by
  cases x <;> rfl

theorem fdiv_nan_left (y : FVal) : fdiv FVal.nan y = FVal.nan := by
  cases y <;> rfl

theorem fdiv_nan_right (x : FVal) : fdiv x FVal.nan = FVal.nan := by
  cases x <;> rfl

theorem flt_nan_left (y : FVal) : flt FVal.nan y = false := by
  cases y <;> rfl

theorem flt_nan_right (x : FVal) : flt x FVal.nan = false := by
  cases x <;> rfl

theorem fle_nan_left (y : FVal) : fle FVal.nan y = false := by
  cases y <;> rfl

theorem fle_nan_right (x : FVal) : fle x FVal.nan = false := by
  cases x <;> rfl

theorem fgt_nan_left (y : FVal) : fgt FVal.nan y = false :=
  flt_nan_right y

theorem fgt_nan_right (x : FVal) : fgt x FVal.nan = false :=
  flt_nan_left x

theorem guardedDiv_nan_left (y : FVal) : guardedDiv FVal.nan y = FVal.nan := by
  unfold guardedDiv
  split
  · rfl
  · exact fdiv_nan_left y

theorem guardedDiv_nan_right (x : FVal) : guardedDiv x FVal.nan = FVal.nan := by
  unfold guardedDiv
  split
  · rfl
  · exact fdiv_nan_right x

theorem guardedDiv_zero_denominator (x : FVal) :
    guardedDiv x (FVal.fin 0) = FVal.nan := by
  unfold guardedDiv
  simp

theorem fsub_fin_fin (a b : ℚ) :
    fsub (FVal.fin a) (FVal.fin b) = FVal.fin (a - b) := rfl

theorem fdiv_fin_fin (a b : ℚ) :
    fdiv (FVal.fin a) (FVal.fin b) =
      if b = 0 then (if a = 0 then FVal.nan else if 0 < a then FVal.inf else FVal.ninf)
      else FVal.fin (a / b) := rfl

theorem flt_fin_fin (a b : ℚ) :
    flt (FVal.fin a) (FVal.fin b) = decide (a < b) := rfl

theorem fle_fin_fin (a b : ℚ) :
    fle (FVal.fin a) (FVal.fin b) = decide (a ≤ b) := rfl

/-- The `data` dictionary assembled in `show_analysis_page`
(src lines 875-890) and passed to `calculate_piotroski_f_score`.
The same fourteen quantities are computed by `show_report_page` before
it builds its `f_score_components` dictionary. -/
structure PiotroskiData where
  net_income_end : FVal
  roa_end : FVal
  roa_beginning : FVal
  cash_flow : FVal
  leverage : FVal
  prev_leverage : FVal
  current_ratio_end : FVal
  current_ratio_beginning : FVal
  shares_outstanding : FVal
  prev_shares_outstanding : FVal
  gross_profit_margin_end : FVal
  gross_profit_margin_beginning : FVal
  total_asset_turnover_end : FVal
  total_asset_turnover_beginning : FVal

/-- `calculate_piotroski_f_score` (src lines 97-127): starts at 0 and
adds 1 for each of its nine signal conditions that holds. -/
def calculate_piotroski_f_score (data : PiotroskiData) : ℕ :=
  let f_score : ℕ := 0
  let f_score := if fgt data.net_income_end (FVal.fin 0) then f_score + 1 else f_score
  let f_score := if fgt data.roa_end data.roa_beginning then f_score + 1 else f_score
  let f_score := if fgt data.cash_flow (FVal.fin 0) then f_score + 1 else f_score
  let f_score := if fgt data.cash_flow data.net_income_end then f_score + 1 else f_score
  let f_score := if flt data.leverage data.prev_leverage then f_score + 1 else f_score
  let f_score := if fgt data.current_ratio_end data.current_ratio_beginning then f_score + 1 else f_score
  let f_score := if fle data.shares_outstanding data.prev_shares_outstanding then f_score + 1 else f_score
  let f_score := if fgt data.gross_profit_margin_end data.gross_profit_margin_beginning then f_score + 1 else f_score
  let f_score := if fgt data.total_asset_turnover_end data.total_asset_turnover_beginning then f_score + 1 else f_score
  f_score

/-- The nine signal conditions tested by `calculate_piotroski_f_score`,
in source order. -/
def piotroskiSignals (data : PiotroskiData) : List Bool :=
  [ fgt data.net_income_end (FVal.fin 0),
    fgt data.roa_end data.roa_beginning,
    fgt data.cash_flow (FVal.fin 0),
    fgt data.cash_flow data.net_income_end,
    flt data.leverage data.prev_leverage,
    fgt data.current_ratio_end data.current_ratio_beginning,
    fle data.shares_outstanding data.prev_shares_outstanding,
    fgt data.gross_profit_margin_end data.gross_profit_margin_beginning,
    fgt data.total_asset_turnover_end data.total_asset_turnover_beginning ]

/-- The values of the `f_score_components` dictionary built by
`show_report_page` (src lines 1156-1167), in source order.  Note the
second entry, `"ROA Positive": roa_end > 0`, which has no counterpart
in `calculate_piotroski_f_score`: the dictionary has ten entries. -/
def f_score_components (data : PiotroskiData) : List Bool :=
  [ fgt data.net_income_end (FVal.fin 0),
    fgt data.roa_end (FVal.fin 0),
    fgt data.roa_end data.roa_beginning,
    fgt data.cash_flow (FVal.fin 0),
    fgt data.cash_flow data.net_income_end,
    flt data.leverage data.prev_leverage,
    fgt data.current_ratio_end data.current_ratio_beginning,
    fle data.shares_outstanding data.prev_shares_outstanding,
    fgt data.gross_profit_margin_end data.gross_profit_margin_beginning,
    fgt data.total_asset_turnover_end data.total_asset_turnover_beginning ]

/-- `piotroski_f_score = sum(f_score_components.values())`
(src line 1169): summing Python booleans counts the true ones. -/
def report_piotroski_f_score (data : PiotroskiData) : ℕ :=
  (f_score_components data).count true

/-- The accumulator implementation equals the number of true entries in
its nine-signal list. -/
theorem calculate_piotroski_f_score_eq_count (data : PiotroskiData) :
    calculate_piotroski_f_score data = (piotroskiSignals data).count true := by
  unfold calculate_piotroski_f_score piotroskiSignals
  generalize fgt data.net_income_end (FVal.fin 0) = b1
  generalize fgt data.roa_end data.roa_beginning = b2
  generalize fgt data.cash_flow (FVal.fin 0) = b3
  generalize fgt data.cash_flow data.net_income_end = b4
  generalize flt data.leverage data.prev_leverage = b5
  generalize fgt data.current_ratio_end data.current_ratio_beginning = b6
  generalize fle data.shares_outstanding data.prev_shares_outstanding = b7
  generalize fgt data.gross_profit_margin_end data.gross_profit_margin_beginning = b8
  generalize fgt data.total_asset_turnover_end data.total_asset_turnover_beginning = b9
  revert b1 b2 b3 b4 b5 b6 b7 b8 b9
  decide

/-!
Ratio formulas.  The source computes every ratio twice with the same
formula shape, once from the `_beginning` operands (src lines 434-442,
577, 580, 583, 670-679, 778-787) and once from the `_end` operands
(src lines 445-453, 578, 581, 584, 671-680, 779-788); `show_report_page`
repeats the same lines (src 1080-1136).  Each definition below mirrors
the `_end` line; the `_beginning` twin is the identical function applied
to the beginning-period operands.
-/

/-- `cogs_end / inv_end if inv_end != 0 else float('nan')` (src 445). -/
def inventory_turnover_end (cogs_end inv_end : FVal) : FVal :=
  guardedDiv cogs_end inv_end

/-- `365 / inventory_turnover_end if inventory_turnover_end != 0 else float('nan')` (src 446). -/
def days_of_inventory_end (inventory_turnover_end : FVal) : FVal :=
  guardedDiv (FVal.fin 365) inventory_turnover_end

/-- `revenue_end / ar_end if ar_end != 0 else float('nan')` (src 447). -/
def receivables_turnover_end (revenue_end ar_end : FVal) : FVal :=
  guardedDiv revenue_end ar_end

/-- `365 / receivables_turnover_end if receivables_turnover_end != 0 else float('nan')` (src 448). -/
def days_of_sales_end (receivables_turnover_end : FVal) : FVal :=
  guardedDiv (FVal.fin 365) receivables_turnover_end

/-- `cogs_end / ap_end if ap_end != 0 else float('nan')` (src 449). -/
def payable_turnover_end (cogs_end ap_end : FVal) : FVal :=
  guardedDiv cogs_end ap_end

/-- `365 / payable_turnover_end if payable_turnover_end != 0 else float('nan')` (src 450). -/
def days_payables_end (payable_turnover_end : FVal) : FVal :=
  guardedDiv (FVal.fin 365) payable_turnover_end

/-- `revenue_end / (ca_end - cl_end)` (src 451): the one UNGUARDED
ratio division; a zero working capital is not turned into NaN. -/
def wc_turnover_end (revenue_end ca_end cl_end : FVal) : FVal :=
  fdiv revenue_end (fsub ca_end cl_end)

/-- `revenue_end / fa_end if fa_end != 0 else float('nan')` (src 452). -/
def fixed_asset_turnover_end (revenue_end fa_end : FVal) : FVal :=
  guardedDiv revenue_end fa_end

/-- `revenue_end / total_assets_end if total_assets_end != 0 else float('nan')` (src 453). -/
def total_asset_turnover_end (revenue_end total_assets_end : FVal) : FVal :=
  guardedDiv revenue_end total_assets_end

/-- `ca_end / cl_end if cl_end != 0 else float('nan')` (src 578). -/
def current_ratio_end (ca_end cl_end : FVal) : FVal :=
  guardedDiv ca_end cl_end

/-- `(cash_end + sts_end + ar_end) / cl_end if cl_end != 0 else float('nan')` (src 581). -/
def quick_ratio_end (cash_end sts_end ar_end cl_end : FVal) : FVal :=
  guardedDiv (fadd (fadd cash_end sts_end) ar_end) cl_end

/-- `(cash_end + sts_end) / cl_end if cl_end != 0 else float('nan')` (src 584). -/
def cash_ratio_end (cash_end sts_end cl_end : FVal) : FVal :=
  guardedDiv (fadd cash_end sts_end) cl_end

/-- `total_liabilities_end = stl_end + ltl_end` (src 413). -/
def total_liabilities_end (stl_end ltl_end : FVal) : FVal :=
  fadd stl_end ltl_end

/-- `total_liabilities_end / total_equity_end if total_equity_end != 0 else float('nan')` (src 671). -/
def debt_to_equity_end (total_liabilities_end total_equity_end : FVal) : FVal :=
  guardedDiv total_liabilities_end total_equity_end

/-- `total_liabilities_end / total_assets_end if total_assets_end != 0 else float('nan')` (src 674). -/
def debt_ratio_end (total_liabilities_end total_assets_end : FVal) : FVal :=
  guardedDiv total_liabilities_end total_assets_end

/-- `total_equity_end / total_assets_end if total_assets_end != 0 else float('nan')` (src 677). -/
def equity_ratio_end (total_equity_end total_assets_end : FVal) : FVal :=
  guardedDiv total_equity_end total_assets_end

/-- `net_income_end / interest_expense_end if interest_expense_end != 0 else float('nan')` (src 680). -/
def interest_coverage_ratio_end (net_income_end interest_expense_end : FVal) : FVal :=
  guardedDiv net_income_end interest_expense_end

/-- `(gross_profit_end / revenue_end) * 100 if revenue_end != 0 else float('nan')` (src 779). -/
def gross_profit_margin_end (gross_profit_end revenue_end : FVal) : FVal :=
  if revenue_end = FVal.fin 0 then FVal.nan
  else fmul (fdiv gross_profit_end revenue_end) (FVal.fin 100)

/-- `(net_income_end / revenue_end) * 100 if revenue_end != 0 else float('nan')` (src 782). -/
def net_profit_margin_end (net_income_end revenue_end : FVal) : FVal :=
  if revenue_end = FVal.fin 0 then FVal.nan
  else fmul (fdiv net_income_end revenue_end) (FVal.fin 100)

/-- `(net_income_end / total_assets_end) * 100 if total_assets_end != 0 else float('nan')` (src 785). -/
def roa_end (net_income_end total_assets_end : FVal) : FVal :=
  if total_assets_end = FVal.fin 0 then FVal.nan
  else fmul (fdiv net_income_end total_assets_end) (FVal.fin 100)

/-- `(net_income_end / total_equity_end) * 100 if total_equity_end != 0 else float('nan')` (src 788). -/
def roe_end (net_income_end total_equity_end : FVal) : FVal :=
  if total_equity_end = FVal.fin 0 then FVal.nan
  else fmul (fdiv net_income_end total_equity_end) (FVal.fin 100)

/-- Altman Z-Score as computed by `show_analysis_page` (src 894-899):
unguarded divisions, `z = 6.56*A + 3.26*B + 6.72*C + 1.05*D`. -/
def z_score_analysis (ca_end cl_end total_assets_end re_end ebit_end
    total_equity_end total_liabilities_end : FVal) : FVal :=
  fadd
    (fadd
      (fadd (fmul (FVal.fin (656/100)) (fdiv (fsub ca_end cl_end) total_assets_end))
            (fmul (FVal.fin (326/100)) (fdiv re_end total_assets_end)))
      (fmul (FVal.fin (672/100)) (fdiv ebit_end total_assets_end)))
    (fmul (FVal.fin (105/100)) (fdiv total_equity_end total_liabilities_end))

/-- Altman Z-Score as computed by `show_report_page` (src 1140-1145):
the same weighted sum, with each component division guarded by
`if ... != 0 else float('nan')`. -/
def z_score_report (ca_end cl_end total_assets_end re_end ebit_end
    total_equity_end total_liabilities_end : FVal) : FVal :=
  fadd
    (fadd
      (fadd (fmul (FVal.fin (656/100)) (guardedDiv (fsub ca_end cl_end) total_assets_end))
            (fmul (FVal.fin (326/100)) (guardedDiv re_end total_assets_end)))
      (fmul (FVal.fin (672/100)) (guardedDiv ebit_end total_assets_end)))
    (fmul (FVal.fin (105/100)) (guardedDiv total_equity_end total_liabilities_end))

/-- The Z-Score bands named by the source's messages. -/
inductive ZZone where
  | safe : ZZone
  | gray : ZZone
  | distress : ZZone
deriving DecidableEq, Repr

/-- The Z-Score classifier, identical in `show_analysis_page`
(src 906-911) and `show_report_page` (src 1148-1153):
`if z > 2.99: Safe elif 1.81 <= z <= 2.99: Gray else: Distress`. -/
def classify_z_score (z : FVal) : ZZone :=
  if fgt z (FVal.fin (299/100)) then ZZone.safe
  else if fle (FVal.fin (181/100)) z && fle z (FVal.fin (299/100)) then ZZone.gray
  else ZZone.distress

/-- The F-Score bands named by the source's messages. -/
inductive FZone where
  | strong : FZone
  | moderate : FZone
  | weak : FZone
deriving DecidableEq, Repr

/-- The F-Score classifier, identical in `show_analysis_page`
(src 922-927) and `show_report_page` (src 1172-1177):
`if f >= 7: Strong elif 4 <= f <= 6: Moderate else: Weak`. -/
def classify_f_score (f : ℕ) : FZone :=
  if f ≥ 7 then FZone.strong
  else if 4 ≤ f ∧ f ≤ 6 then FZone.moderate
  else FZone.weak

/-- The `ratio_groups` dictionary assembled by `show_analysis_page`
(src 932-958) and handed to the PDF generator: category name to a list
of (ratio name, beginning value, end value).  It contains only the four
profitability ratios, four of the nine activity ratios, the four
solvency ratios, and the two composite scores as bare values (the
F-Score integer is stored alongside the floats, modelled here as
`FVal.fin`). -/
def ratio_groups
    (gross_profit_margin_beginning gross_profit_margin_end
     net_profit_margin_beginning net_profit_margin_end
     roa_beginning roa_end roe_beginning roe_end
     inventory_turnover_beginning inventory_turnover_end
     days_of_inventory_beginning days_of_inventory_end
     receivables_turnover_beginning receivables_turnover_end
     days_of_sales_beginning days_of_sales_end
     debt_to_equity_beginning debt_to_equity_end
     debt_ratio_beginning debt_ratio_end
     equity_ratio_beginning equity_ratio_end
     interest_coverage_ratio_beginning interest_coverage_ratio_end
     z_score piotroski_f_score : FVal) :
    List (String × List (String × FVal × FVal)) :=
  [ ("Profitability Ratios",
      [ ("Gross Profit Margin", (gross_profit_margin_beginning, gross_profit_margin_end)),
        ("Net Profit Margin", (net_profit_margin_beginning, net_profit_margin_end)),
        ("Return on Assets (ROA)", (roa_beginning, roa_end)),
        ("Return on Equity (ROE)", (roe_beginning, roe_end)) ]),
    ("Activity Ratios",
      [ ("Inventory Turnover", (inventory_turnover_beginning, inventory_turnover_end)),
        ("Days of Inventory", (days_of_inventory_beginning, days_of_inventory_end)),
        ("Receivables Turnover", (receivables_turnover_beginning, receivables_turnover_end)),
        ("Days of Sales Outstanding", (days_of_sales_beginning, days_of_sales_end)) ]),
    ("Solvency Ratios",
      [ ("Debt-to-Equity Ratio", (debt_to_equity_beginning, debt_to_equity_end)),
        ("Debt Ratio", (debt_ratio_beginning, debt_ratio_end)),
        ("Equity Ratio", (equity_ratio_beginning, equity_ratio_end)),
        ("Interest Coverage Ratio", (interest_coverage_ratio_beginning, interest_coverage_ratio_end)) ]),
    ("Altman Z-Score",
      [ ("Altman Z-Score", (z_score, z_score)) ]),
    ("Piotroski F-Score",
      [ ("Piotroski F-Score", (piotroski_f_score, piotroski_f_score)) ]) ]

/-!
Line-item extraction.  Each extraction in the source is
`pd.to_numeric(df.loc[df[label_column] == label, value_column].values[0],
errors='coerce')` (src 356-421): the first row whose label matches is
taken; `.values[0]` raises IndexError when no row matches (caught by the
page-level handler at src 964-967, aborting the whole run); a matched
cell that is non-numeric or empty is coerced to NaN.
-/

/-- The content of one spreadsheet cell as the extractor sees it:
a number, non-numeric text, or empty. -/
inductive Cell where
  | num : ℚ → Cell
  | nonnum : Cell
  | empty : Cell
deriving DecidableEq, Repr

/-- `pd.to_numeric(value, errors='coerce')` on a single cell. -/
def to_numeric : Cell → FVal
  | .num q => .fin q
  | .nonnum => .nan
  | .empty => .nan

/-- The two period columns of every statement sheet. -/
inductive Period where
  | beginning : Period
  | ending : Period
deriving DecidableEq, Repr

/-- One row of a statement sheet: a label and the two period cells. -/
structure Row where
  label : String
  beginningCell : Cell
  endingCell : Cell
deriving DecidableEq, Repr

/-- Select the requested period's cell. -/
def Row.cell (r : Row) : Period → Cell
  | .beginning => r.beginningCell
  | .ending => r.endingCell

/-- The extraction idiom: first-match lookup, then `.values[0]`
(IndexError, modelled as `Except.error ()`, when the label is absent),
then numeric coercion. -/
def extract (table : List Row) (label : String) (p : Period) :
    Except Unit FVal :=
  match table.find? (fun r => r.label == label) with
  | some r => Except.ok (to_numeric (r.cell p))
  | none => Except.error ()

/-- NaN-propagation through the weighted sum
`c1*A + c2*B + c3*C + c4*D` used by both Z-Score computations. -/
theorem weighted_sum_nan (c1 c2 c3 c4 : ℚ) (A B C D : FVal)
    (h : A = FVal.nan ∨ B = FVal.nan ∨ C = FVal.nan ∨ D = FVal.nan) :
    fadd (fadd (fadd (fmul (FVal.fin c1) A) (fmul (FVal.fin c2) B))
               (fmul (FVal.fin c3) C)) (fmul (FVal.fin c4) D) = FVal.nan := by
  rcases h with h | h | h | h <;> subst h <;>
    simp [fmul_nan_right, fadd_nan_left, fadd_nan_right]

/-- NaN-propagation through the profitability-margin idiom
`(x / y) * 100 if y != 0 else float('nan')`. -/
theorem times100_nan (x y : FVal)
    (h : x = FVal.nan ∨ y = FVal.nan ∨ y = FVal.fin 0) :
    (if y = FVal.fin 0 then FVal.nan else fmul (fdiv x y) (FVal.fin 100)) =
      FVal.nan := by
  rcases h with rfl | rfl | rfl
  · by_cases hy : y = FVal.fin 0 <;> simp [hy, fdiv_nan_left, fmul_nan_left]
  · simp [fdiv_nan_right, fmul_nan_left]
  · simp

/-- Shared signal inputs on which the two Piotroski implementations
disagree: ROA fell from 2 to 1 but is still positive, and every other
signal condition is false. -/
def piotroski_data_roa_positive : PiotroskiData :=
  { net_income_end := .fin (-1), roa_end := .fin 1, roa_beginning := .fin 2,
    cash_flow := .fin (-5), leverage := .fin 2, prev_leverage := .fin 1,
    current_ratio_end := .fin 1, current_ratio_beginning := .fin 1,
    shares_outstanding := .fin 2, prev_shares_outstanding := .fin 1,
    gross_profit_margin_end := .fin 1, gross_profit_margin_beginning := .fin 1,
    total_asset_turnover_end := .fin 1, total_asset_turnover_beginning := .fin 1 }

/-- Claim C1: the accumulator implementation
(`calculate_piotroski_f_score`) and the boolean-dictionary sum of
`show_report_page` return the same score for every assignment of the
shared inputs.  This FAILS: the dictionary contains a tenth component,
`"ROA Positive": roa_end > 0`, absent from the accumulator version, so
on `piotroski_data_roa_positive` the accumulator returns 0 while the
dictionary sum returns 1. -/
theorem C1_piotroski_implementations_diverge :
    calculate_piotroski_f_score piotroski_data_roa_positive = 0 ∧
    report_piotroski_f_score piotroski_data_roa_positive = 1 ∧
    calculate_piotroski_f_score piotroski_data_roa_positive ≠
      report_piotroski_f_score piotroski_data_roa_positive := by
  decide

/-- Shared signal inputs with exactly three of the nine accumulator
signals true (positive net income, positive cash flow, cash flow above
net income). -/
def piotroski_data_three_signals : PiotroskiData :=
  { net_income_end := .fin 5, roa_end := .fin 1, roa_beginning := .fin 2,
    cash_flow := .fin 10, leverage := .fin 2, prev_leverage := .fin 1,
    current_ratio_end := .fin 1, current_ratio_beginning := .fin 1,
    shares_outstanding := .fin 2, prev_shares_outstanding := .fin 1,
    gross_profit_margin_end := .fin 1, gross_profit_margin_beginning := .fin 1,
    total_asset_turnover_end := .fin 1, total_asset_turnover_beginning := .fin 1 }

/-- Claim C2: when exactly k of the nine signals are true,
`calculate_piotroski_f_score` returns exactly k; and every ordered
comparison with a NaN operand evaluates false, so a missing operand
makes its signal contribute nothing (the function is total, so no error
is possible). -/
theorem C2_piotroski_signal_count (data : PiotroskiData) (k : ℕ)
    (hk : (piotroskiSignals data).count true = k) :
    calculate_piotroski_f_score data = k ∧
    (∀ x : FVal,
      fgt FVal.nan x = false ∧ fgt x FVal.nan = false ∧
      flt FVal.nan x = false ∧ flt x FVal.nan = false ∧
      fle FVal.nan x = false ∧ fle x FVal.nan = false) :=
  ⟨hk ▸ calculate_piotroski_f_score_eq_count data,
   fun x => ⟨fgt_nan_left x, fgt_nan_right x, flt_nan_left x,
     flt_nan_right x, fle_nan_left x, fle_nan_right x⟩⟩

/-- Witness for C2 at a concrete input with exactly three true signals. -/
theorem C2_piotroski_signal_count_witness :
    calculate_piotroski_f_score piotroski_data_three_signals = 3 :=
  (C2_piotroski_signal_count piotroski_data_three_signals 3 (by decide)).1

/-- Shared signal inputs on which all ten report-page components are
true (consistent with a real upload, e.g. net income 1 on total assets
50 gives ROA 2). -/
def piotroski_data_all_signals : PiotroskiData :=
  { net_income_end := .fin 1, roa_end := .fin 2, roa_beginning := .fin 1,
    cash_flow := .fin 5, leverage := .fin 1, prev_leverage := .fin 2,
    current_ratio_end := .fin 2, current_ratio_beginning := .fin 1,
    shares_outstanding := .fin 1, prev_shares_outstanding := .fin 1,
    gross_profit_margin_end := .fin 2, gross_profit_margin_beginning := .fin 1,
    total_asset_turnover_end := .fin 2, total_asset_turnover_beginning := .fin 1 }

/-- Claim C3: the F-Score is an integer between 0 and 9 inclusive for
either implementation.  The accumulator implementation does satisfy
this (it counts at most its nine signals), but the report-page
dictionary sum returns 10 on `piotroski_data_all_signals`, because it
sums ten components. -/
theorem C3_f_score_range :
    (∀ data : PiotroskiData, calculate_piotroski_f_score data ≤ 9) ∧
    report_piotroski_f_score piotroski_data_all_signals = 10 := by
  constructor
  · intro data
    rw [calculate_piotroski_f_score_eq_count]
    calc (piotroskiSignals data).count true
        ≤ (piotroskiSignals data).length := List.count_le_length _ _
      _ = 9 := rfl
  · decide

/-- Claim C4 counterexample: `wc_turnover_end` has no zero guard, so
with Revenue 100 and CurrentAssets = CurrentLiabilities = 50 it yields
+inf, not the missing sentinel NaN. -/
theorem C4_cex_wc_turnover_zero_denominator :
    wc_turnover_end (FVal.fin 100) (FVal.fin 50) (FVal.fin 50) = FVal.inf ∧
    FVal.inf ≠ FVal.nan := by
  constructor
  · simp only [wc_turnover_end, fsub_fin_fin, fdiv_fin_fin]
    norm_num
  · exact fun h => FVal.noConfusion h

/-- Claim C4 (amended): every guarded ratio yields NaN when an operand
is missing or its guarded denominator is zero, and the unguarded
WorkingCapitalTurnover still yields NaN for missing operands (only its
zero-denominator case escapes, per the counterexample). -/
theorem C4_missing_or_zero_denominator_gives_nan :
    (∀ x y : FVal, x = FVal.nan ∨ y = FVal.nan ∨ y = FVal.fin 0 →
      guardedDiv x y = FVal.nan) ∧
    (∀ a b : FVal, a = FVal.nan ∨ b = FVal.nan → fadd a b = FVal.nan) ∧
    (∀ r a b : FVal, r = FVal.nan ∨ a = FVal.nan ∨ b = FVal.nan →
      wc_turnover_end r a b = FVal.nan) ∧
    (∀ x y : FVal, x = FVal.nan ∨ y = FVal.nan ∨ y = FVal.fin 0 →
      gross_profit_margin_end x y = FVal.nan ∧
      net_profit_margin_end x y = FVal.nan ∧
      roa_end x y = FVal.nan ∧
      roe_end x y = FVal.nan) ∧
    (∀ x y z w : FVal,
      inventory_turnover_end x y = guardedDiv x y ∧
      receivables_turnover_end x y = guardedDiv x y ∧
      payable_turnover_end x y = guardedDiv x y ∧
      fixed_asset_turnover_end x y = guardedDiv x y ∧
      total_asset_turnover_end x y = guardedDiv x y ∧
      current_ratio_end x y = guardedDiv x y ∧
      debt_to_equity_end x y = guardedDiv x y ∧
      debt_ratio_end x y = guardedDiv x y ∧
      equity_ratio_end x y = guardedDiv x y ∧
      interest_coverage_ratio_end x y = guardedDiv x y ∧
      days_of_inventory_end y = guardedDiv (FVal.fin 365) y ∧
      days_of_sales_end y = guardedDiv (FVal.fin 365) y ∧
      days_payables_end y = guardedDiv (FVal.fin 365) y ∧
      quick_ratio_end x z w y = guardedDiv (fadd (fadd x z) w) y ∧
      cash_ratio_end x z y = guardedDiv (fadd x z) y ∧
      total_liabilities_end x y = fadd x y) := by
  refine ⟨?_, ?_, ?_, ?_, ?_⟩
  · rintro x y (rfl | rfl | rfl)
    · exact guardedDiv_nan_left y
    · exact guardedDiv_nan_right x
    · exact guardedDiv_zero_denominator x
  · rintro a b (rfl | rfl)
    · exact fadd_nan_left b
    · exact fadd_nan_right a
  · rintro r a b (rfl | rfl | rfl) <;>
      simp [wc_turnover_end, fsub_nan_left, fsub_nan_right,
        fdiv_nan_left, fdiv_nan_right]
  · intro x y h
    exact ⟨times100_nan x y h, times100_nan x y h,
      times100_nan x y h, times100_nan x y h⟩
  · intro x y z w
    exact ⟨rfl, rfl, rfl, rfl, rfl, rfl, rfl, rfl, rfl, rfl, rfl, rfl, rfl, rfl, rfl, rfl⟩

/-- Witness for C4 (amended) at concrete inputs. -/
theorem C4_missing_or_zero_denominator_gives_nan_witness :
    guardedDiv (FVal.fin 1) (FVal.fin 0) = FVal.nan ∧
    wc_turnover_end FVal.nan (FVal.fin 2) (FVal.fin 1) = FVal.nan ∧
    roa_end (FVal.fin 1) (FVal.fin 0) = FVal.nan :=
  ⟨C4_missing_or_zero_denominator_gives_nan.1 (FVal.fin 1) (FVal.fin 0)
      (Or.inr (Or.inr rfl)),
   C4_missing_or_zero_denominator_gives_nan.2.2.1 FVal.nan (FVal.fin 2) (FVal.fin 1)
      (Or.inl rfl),
   (C4_missing_or_zero_denominator_gives_nan.2.2.2.1 (FVal.fin 1) (FVal.fin 0)
      (Or.inr (Or.inr rfl))).2.2.1⟩

/-- A one-row statement sheet used to exercise the extractor. -/
def sample_table : List Row :=
  [ { label := "A", beginningCell := Cell.num 1, endingCell := Cell.num 2 } ]

/-- Claim C5 counterexample: looking up a label that is not in the
table does NOT return the missing value; it raises (IndexError from
`.values[0]`), which the page-level handler turns into an abort of the
whole analysis. -/
theorem C5_cex_label_not_found_raises :
    extract sample_table "B" Period.beginning = Except.error () ∧
    extract sample_table "B" Period.beginning ≠ Except.ok FVal.nan := by
  have h1 : extract sample_table "B" Period.beginning = Except.error () := rfl
  refine ⟨h1, ?_⟩
  rw [h1]
  exact fun h => Except.noConfusion h

/-- Claim C5 (amended): when the label is found, extraction yields the
coerced cell value (NaN for a non-numeric or empty cell) and downstream
guarded arithmetic propagates NaN rather than failing; when the label
is not found, extraction raises instead of yielding missing. -/
theorem C5_amended_extract_behavior (table : List Row) (label : String)
    (p : Period) :
    (∀ r : Row, table.find? (fun q => q.label == label) = some r →
      extract table label p = Except.ok (to_numeric (r.cell p))) ∧
    (table.find? (fun q => q.label == label) = none →
      extract table label p = Except.error ()) ∧
    to_numeric Cell.nonnum = FVal.nan ∧
    to_numeric Cell.empty = FVal.nan ∧
    (∀ x : FVal, guardedDiv FVal.nan x = FVal.nan ∧
      guardedDiv x FVal.nan = FVal.nan) := by
  refine ⟨?_, ?_, rfl, rfl,
    fun x => ⟨guardedDiv_nan_left x, guardedDiv_nan_right x⟩⟩
  · intro r h
    unfold extract
    rw [h]
  · intro h
    unfold extract
    rw [h]

/-- Witness for C5 (amended) on the sample table. -/
theorem C5_amended_extract_behavior_witness :
    extract sample_table "A" Period.beginning = Except.ok (FVal.fin 1) :=
  (C5_amended_extract_behavior sample_table "A" Period.beginning).1
    { label := "A", beginningCell := Cell.num 1, endingCell := Cell.num 2 }
    (by decide)

/-- Claim C6: both Z-Score computations are the weighted sum
`6.56*A + 3.26*B + 6.72*C + 1.05*D` of the four end-of-period
components, and a missing (NaN) component makes the whole sum NaN. -/
theorem C6_z_score_weighted_sum (ca cl ta re ebit te tl : FVal) :
    z_score_analysis ca cl ta re ebit te tl =
      fadd (fadd (fadd (fmul (FVal.fin (656/100)) (fdiv (fsub ca cl) ta))
                       (fmul (FVal.fin (326/100)) (fdiv re ta)))
                 (fmul (FVal.fin (672/100)) (fdiv ebit ta)))
           (fmul (FVal.fin (105/100)) (fdiv te tl)) ∧
    (fdiv (fsub ca cl) ta = FVal.nan ∨ fdiv re ta = FVal.nan ∨
     fdiv ebit ta = FVal.nan ∨ fdiv te tl = FVal.nan →
      z_score_analysis ca cl ta re ebit te tl = FVal.nan) ∧
    (guardedDiv (fsub ca cl) ta = FVal.nan ∨ guardedDiv re ta = FVal.nan ∨
     guardedDiv ebit ta = FVal.nan ∨ guardedDiv te tl = FVal.nan →
      z_score_report ca cl ta re ebit te tl = FVal.nan) :=
  ⟨rfl,
   fun h => weighted_sum_nan (656/100) (326/100) (672/100) (105/100) _ _ _ _ h,
   fun h => weighted_sum_nan (656/100) (326/100) (672/100) (105/100) _ _ _ _ h⟩

/-- Witness for C6: a missing TotalAssets makes both Z-Scores NaN. -/
theorem C6_z_score_weighted_sum_witness :
    z_score_analysis (FVal.fin 1) (FVal.fin 1) FVal.nan (FVal.fin 1)
      (FVal.fin 1) (FVal.fin 1) (FVal.fin 1) = FVal.nan ∧
    z_score_report (FVal.fin 1) (FVal.fin 1) FVal.nan (FVal.fin 1)
      (FVal.fin 1) (FVal.fin 1) (FVal.fin 1) = FVal.nan :=
  ⟨(C6_z_score_weighted_sum (FVal.fin 1) (FVal.fin 1) FVal.nan (FVal.fin 1)
      (FVal.fin 1) (FVal.fin 1) (FVal.fin 1)).2.1 (Or.inl (by decide)),
   (C6_z_score_weighted_sum (FVal.fin 1) (FVal.fin 1) FVal.nan (FVal.fin 1)
      (FVal.fin 1) (FVal.fin 1) (FVal.fin 1)).2.2 (Or.inl (by decide))⟩

/-- Claim C7: the Z-Score classifier maps z > 2.99 to Safe,
1.81 ≤ z ≤ 2.99 to Gray, z < 1.81 to Distress; both boundaries fall in
the Gray band. -/
theorem C7_z_classification (q : ℚ) :
    (299/100 < q → classify_z_score (FVal.fin q) = ZZone.safe) ∧
    (181/100 ≤ q ∧ q ≤ 299/100 → classify_z_score (FVal.fin q) = ZZone.gray) ∧
    (q < 181/100 → classify_z_score (FVal.fin q) = ZZone.distress) ∧
    classify_z_score (FVal.fin (299/100)) = ZZone.gray ∧
    classify_z_score (FVal.fin (181/100)) = ZZone.gray := by
  have key : ∀ r : ℚ, classify_z_score (FVal.fin r) =
      if 299/100 < r then ZZone.safe
      else if 181/100 ≤ r ∧ r ≤ 299/100 then ZZone.gray
      else ZZone.distress := by
    intro r
    simp only [classify_z_score, fgt, flt_fin_fin, fle_fin_fin,
      Bool.and_eq_true, decide_eq_true_eq]
  refine ⟨?_, ?_, ?_, ?_, ?_⟩
  · intro h
    rw [key, if_pos h]
  · rintro ⟨h1, h2⟩
    rw [key, if_neg (not_lt.mpr h2), if_pos ⟨h1, h2⟩]
  · intro h
    rw [key, if_neg (by linarith), if_neg (by rintro ⟨h1, _⟩; linarith)]
  · rw [key]
    norm_num
  · rw [key]
    norm_num

/-- Witness for C7 at z = 3, 2 and 1. -/
theorem C7_z_classification_witness :
    classify_z_score (FVal.fin 3) = ZZone.safe ∧
    classify_z_score (FVal.fin 2) = ZZone.gray ∧
    classify_z_score (FVal.fin 1) = ZZone.distress :=
  ⟨(C7_z_classification 3).1 (by norm_num),
   (C7_z_classification 2).2.1 (by norm_num),
   (C7_z_classification 1).2.2.1 (by norm_num)⟩

/-- Claim C8: the F-Score classifier maps f ≥ 7 to Strong, 4 ≤ f ≤ 6
to Moderate, f < 4 to Weak; in particular 7 is Strong, 6 is Moderate
and 3 is Weak. -/
theorem C8_f_classification (f : ℕ) :
    (7 ≤ f → classify_f_score f = FZone.strong) ∧
    (4 ≤ f ∧ f ≤ 6 → classify_f_score f = FZone.moderate) ∧
    (f < 4 → classify_f_score f = FZone.weak) ∧
    classify_f_score 7 = FZone.strong ∧
    classify_f_score 6 = FZone.moderate ∧
    classify_f_score 3 = FZone.weak := by
  refine ⟨?_, ?_, ?_, by decide, by decide, by decide⟩
  · intro h
    simp [classify_f_score, h]
  · rintro ⟨h1, h2⟩
    have h7 : ¬ f ≥ 7 := by omega
    simp [classify_f_score, h7, h1, h2]
  · intro h
    have h7 : ¬ f ≥ 7 := by omega
    have h4 : ¬ (4 ≤ f ∧ f ≤ 6) := by omega
    simp [classify_f_score, h7, h4]

/-- Witness for C8 at f = 8, 5 and 2. -/
theorem C8_f_classification_witness :
    classify_f_score 8 = FZone.strong ∧
    classify_f_score 5 = FZone.moderate ∧
    classify_f_score 2 = FZone.weak :=
  ⟨(C8_f_classification 8).1 (by decide),
   (C8_f_classification 5).2.1 (by decide),
   (C8_f_classification 2).2.2.1 (by decide)⟩

/-- A fully concrete aggregator output used as the C9 counterexample. -/
def sample_ratio_groups : List (String × List (String × FVal × FVal)) :=
  ratio_groups (FVal.fin 1) (FVal.fin 2) (FVal.fin 3) (FVal.fin 4)
    (FVal.fin 5) (FVal.fin 6) (FVal.fin 7) (FVal.fin 8) (FVal.fin 9)
    (FVal.fin 10) (FVal.fin 11) (FVal.fin 12) (FVal.fin 13) (FVal.fin 14)
    (FVal.fin 15) (FVal.fin 16) (FVal.fin 17) (FVal.fin 18) (FVal.fin 19)
    (FVal.fin 20) (FVal.fin 21) (FVal.fin 22) (FVal.fin 23) (FVal.fin 24)
    (FVal.fin 25) (FVal.fin 5)

/-- Claim C9 counterexample: the aggregator's output has no Liquidity
category at all, and its Activity group is missing five of the nine
activity ratios (here: Working Capital Turnover and Total Asset
Turnover shown absent). -/
theorem C9_cex_aggregator_omits_ratios :
    sample_ratio_groups.lookup "Liquidity Ratios" = none ∧
    ((sample_ratio_groups.lookup "Activity Ratios").getD []).lookup
      "Working Capital Turnover" = none ∧
    ((sample_ratio_groups.lookup "Activity Ratios").getD []).lookup
      "Total Asset Turnover" = none := by
  decide

/-- Claim C9 (amended): the aggregator performs no computation — it
groups exactly the four profitability ratios, four of the nine activity
ratios, and the four solvency ratios under fixed category names, plus
the two composite scores as bare values (no Liquidity group, no
classification labels). -/
theorem C9_amended_aggregator
    (gpmb gpme npmb npme roab roae roeb roee itb ite2 dib die rtb rte
     dsb dse dteb dtee drb dre erb ere icb ice z f : FVal) :
    (ratio_groups gpmb gpme npmb npme roab roae roeb roee itb ite2 dib die
        rtb rte dsb dse dteb dtee drb dre erb ere icb ice z f).map Prod.fst =
      ["Profitability Ratios", "Activity Ratios", "Solvency Ratios",
       "Altman Z-Score", "Piotroski F-Score"] ∧
    (ratio_groups gpmb gpme npmb npme roab roae roeb roee itb ite2 dib die
        rtb rte dsb dse dteb dtee drb dre erb ere icb ice z f).lookup
      "Profitability Ratios" =
      some [ ("Gross Profit Margin", (gpmb, gpme)),
             ("Net Profit Margin", (npmb, npme)),
             ("Return on Assets (ROA)", (roab, roae)),
             ("Return on Equity (ROE)", (roeb, roee)) ] ∧
    (ratio_groups gpmb gpme npmb npme roab roae roeb roee itb ite2 dib die
        rtb rte dsb dse dteb dtee drb dre erb ere icb ice z f).lookup
      "Activity Ratios" =
      some [ ("Inventory Turnover", (itb, ite2)),
             ("Days of Inventory", (dib, die)),
             ("Receivables Turnover", (rtb, rte)),
             ("Days of Sales Outstanding", (dsb, dse)) ] ∧
    (ratio_groups gpmb gpme npmb npme roab roae roeb roee itb ite2 dib die
        rtb rte dsb dse dteb dtee drb dre erb ere icb ice z f).lookup
      "Solvency Ratios" =
      some [ ("Debt-to-Equity Ratio", (dteb, dtee)),
             ("Debt Ratio", (drb, dre)),
             ("Equity Ratio", (erb, ere)),
             ("Interest Coverage Ratio", (icb, ice)) ] ∧
    (ratio_groups gpmb gpme npmb npme roab roae roeb roee itb ite2 dib die
        rtb rte dsb dse dteb dtee drb dre erb ere icb ice z f).lookup
      "Liquidity Ratios" = none ∧
    (ratio_groups gpmb gpme npmb npme roab roae roeb roee itb ite2 dib die
        rtb rte dsb dse dteb dtee drb dre erb ere icb ice z f).lookup
      "Altman Z-Score" = some [("Altman Z-Score", (z, z))] ∧
    (ratio_groups gpmb gpme npmb npme roab roae roeb roee itb ite2 dib die
        rtb rte dsb dse dteb dtee drb dre erb ere icb ice z f).lookup
      "Piotroski F-Score" = some [("Piotroski F-Score", (f, f))] :=
  ⟨rfl, rfl, rfl, rfl, rfl, rfl, rfl⟩

/-- Claim C10 (implicit): a NaN Z-Score falls through the classifier to
the Distress branch, because every ordered comparison on NaN is false. -/
theorem C10_nan_z_score_distress :
    classify_z_score FVal.nan = ZZone.distress ∧
    (∀ x : FVal, fgt FVal.nan x = false ∧ fle FVal.nan x = false ∧
      fle x FVal.nan = false) :=
  ⟨rfl, fun x => ⟨fgt_nan_left x, fle_nan_left x, fle_nan_right x⟩⟩

end Project1
